import Mathlib

/-!
Shallow embedding of the flux/gradient reconstruction engine of the
2p2c box model:

* `TwoPTwoC.calculateBoundaryValues` embeds
  `TwoPTwoCBoundaryVariables::calculateBoundaryValues_`
  (dumux/boxmodels/2p2c/2p2cboundaryvariables.hh).  The mutable local
  variable `tmp` of the C++ function is threaded through both loops
  explicitly, because its value carries over from the vertex loop into
  the phase loop when gravity is disabled.
* `TwoPTwoC.mkNIFluxVariables` embeds the constructor of
  `TwoPTwoCNIFluxVariables`
  (dumux/boxmodels/2p2cni/2p2cnifluxvariables.hh).

Scalars are modelled as `ℚ`; the C library call `pow(x, 7.0/3)` is an
external real-power routine and is modelled as an uninterpreted
function `pow73` supplied with the inputs.  Vectors of dimension `dim`
(`Dune::FieldVector<Scalar, dim>`) are `Fin dim → ℚ`; the Dune
`operator*` on two vectors is the scalar product `dot`.
-/

namespace TwoPTwoC

/-- A `dim`-dimensional coordinate vector (`Dune::FieldVector<Scalar, dim>`). -/
abbrev Vec (dim : ℕ) := Fin dim → ℚ

/-- Scalar product of two vectors (Dune `operator*` on field vectors). -/
def dot {dim : ℕ} (u v : Vec dim) : ℚ := ∑ i, u i * v i

/-- The wetting (liquid) phase index `Indices::lPhaseIdx`. -/
def lPhaseIdx : Fin 2 := 0

/-- The non-wetting (gas) phase index `Indices::gPhaseIdx`. -/
def gPhaseIdx : Fin 2 := 1

/-- The wetting component index `Indices::lCompIdx`. -/
def lCompIdx : Fin 2 := 0

/-- The non-wetting component index `Indices::gCompIdx`. -/
def gCompIdx : Fin 2 := 1

/-- Secondary variables of one sub-control volume (the `VolumeVariables`
of one local vertex, together with its `fluidState()`). -/
structure VolumeVariables where
  pressure : Fin 2 → ℚ
  density : Fin 2 → ℚ
  molarDensity : Fin 2 → ℚ
  saturation : Fin 2 → ℚ
  porosity : ℚ
  diffCoeff : Fin 2 → ℚ
  massFraction : Fin 2 → Fin 2 → ℚ
  moleFraction : Fin 2 → Fin 2 → ℚ
  temperature : ℚ

/-- Geometry data of one boundary face (`FVElementGeometry::BoundaryFace`):
shape-function gradient and shape value per local vertex at the
integration point, and the face normal. -/
structure BoundaryFaceGeom (dim : ℕ) where
  grad : ℕ → Vec dim
  shapeValue : ℕ → ℚ
  normal : Vec dim

/-- All inputs consumed by `calculateBoundaryValues_`: the element
geometry (vertex count and the boundary face selected by
`boundaryFaceIdx`), the per-vertex volume variables `elemDat`, the
constructor-supplied sub-control-volume index `scvIdx`, the
spatial-parameter accessors (intrinsic permeability per sub-control
volume, gravity flag and vector) and the model of `pow(x, 7.0/3)`. -/
structure BoundaryInputs (dim : ℕ) where
  numVertices : ℕ
  face : BoundaryFaceGeom dim
  elemDat : ℕ → VolumeVariables
  scvIdx : ℕ
  intrinsicPermeability : ℕ → ℚ
  enableGravity : Bool
  gravity : Vec dim
  pow73 : ℚ → ℚ

/-- The state written by `calculateBoundaryValues_`: the member fields
of `TwoPTwoCBoundaryVariables` plus the function-local variable `tmp`,
which survives from the vertex loop into the phase loop. -/
structure BoundaryState (dim : ℕ) where
  potentialGrad : Fin 2 → Vec dim
  concentrationGrad : Fin 2 → Vec dim
  molarConcGrad : Fin 2 → Vec dim
  pressureAtIP : Fin 2 → ℚ
  densityAtIP : Fin 2 → ℚ
  molarDensityAtIP : Fin 2 → ℚ
  KmvpNormal : Fin 2 → ℚ
  porousDiffCoeff : Fin 2 → ℚ
  tmp : Vec dim

/-- The state after the constructor's zero-initialisation loop and the
declaration `Vector tmp(0.0)`. -/
def initState (dim : ℕ) : BoundaryState dim :=
  { potentialGrad := fun _ => 0
    concentrationGrad := fun _ => 0
    molarConcGrad := fun _ => 0
    pressureAtIP := fun _ => 0
    densityAtIP := fun _ => 0
    molarDensityAtIP := fun _ => 0
    KmvpNormal := fun _ => 0
    porousDiffCoeff := fun _ => 0
    tmp := 0 }

/-- One iteration of the vertex loop of `calculateBoundaryValues_`
(loop variable `idx`).  The inner phase loop leaves
`tmp = feGrad * pressure(gPhaseIdx)`; the four concentration-gradient
sections then overwrite `tmp` in order, so after the iteration
`tmp = feGrad * moleFraction(gPhaseIdx, lCompIdx)`. -/
def vertexStep {dim : ℕ} (inp : BoundaryInputs dim) (s : BoundaryState dim)
    (idx : ℕ) : BoundaryState dim :=
  let feGrad := inp.face.grad idx
  let vd := inp.elemDat idx
  { s with
    potentialGrad := fun p => s.potentialGrad p + vd.pressure p • feGrad
    concentrationGrad := fun p =>
      if p = lPhaseIdx then
        s.concentrationGrad p + vd.massFraction lPhaseIdx gCompIdx • feGrad
      else
        s.concentrationGrad p + vd.massFraction gPhaseIdx lCompIdx • feGrad
    molarConcGrad := fun p =>
      if p = lPhaseIdx then
        s.molarConcGrad p + vd.moleFraction lPhaseIdx gCompIdx • feGrad
      else
        s.molarConcGrad p + vd.moleFraction gPhaseIdx lCompIdx • feGrad
    pressureAtIP := fun p =>
      s.pressureAtIP p + vd.pressure p * inp.face.shapeValue idx
    densityAtIP := fun p =>
      s.densityAtIP p + vd.density p * inp.face.shapeValue idx
    molarDensityAtIP := fun p =>
      s.molarDensityAtIP p + vd.molarDensity p * inp.face.shapeValue idx
    tmp := vd.moleFraction gPhaseIdx lCompIdx • feGrad }

/-- The permeability tensor of the boundary reconstructor: `Tensor K(0)`
followed by `K[0][0] = K[1][1] = k`, so `k` sits at the diagonal
positions `(0,0)` and `(1,1)` and every other entry is zero. -/
def Ktensor (dim : ℕ) (k : ℚ) : Matrix (Fin dim) (Fin dim) ℚ :=
  Matrix.of fun i j =>
    if (i.val = 0 ∧ j.val = 0) ∨ (i.val = 1 ∧ j.val = 1) then k else 0

/-- One iteration of the phase loop of `calculateBoundaryValues_`.
`tmp` is reassigned only when gravity is enabled; otherwise the stale
value from the previous iteration (on entry: from the vertex loop) is
subtracted from the potential gradient. -/
def phaseStep {dim : ℕ} (inp : BoundaryInputs dim) (s : BoundaryState dim)
    (phaseIdx : Fin 2) : BoundaryState dim :=
  let tmp := if inp.enableGravity then s.densityAtIP phaseIdx • inp.gravity else s.tmp
  let pg := s.potentialGrad phaseIdx - tmp
  let k := inp.intrinsicPermeability inp.scvIdx
  let Kmvp := (Ktensor dim k).mulVec pg
  let vertDat := inp.elemDat inp.scvIdx
  let pdc :=
    if vertDat.saturation phaseIdx ≤ 0 then 0
    else
      let tau := 1 / (vertDat.porosity * vertDat.porosity) *
        inp.pow73 (vertDat.porosity * vertDat.saturation phaseIdx)
      vertDat.porosity * vertDat.saturation phaseIdx * tau * vertDat.diffCoeff phaseIdx
  { s with
    potentialGrad := Function.update s.potentialGrad phaseIdx pg
    KmvpNormal := Function.update s.KmvpNormal phaseIdx (-(dot Kmvp inp.face.normal))
    porousDiffCoeff := Function.update s.porousDiffCoeff phaseIdx pdc
    tmp := tmp }

/-- The vertex loop of `calculateBoundaryValues_` run from the
zero-initialised state over the first `n` vertices. -/
def vertexLoop {dim : ℕ} (inp : BoundaryInputs dim) (n : ℕ) : BoundaryState dim :=
  (List.range n).foldl (vertexStep inp) (initState dim)

/-- `TwoPTwoCBoundaryVariables::calculateBoundaryValues_`: zero-initialise,
run the vertex loop over `0 ≤ idx < numVertices`, then the phase loop
over the two phases in order. -/
def calculateBoundaryValues {dim : ℕ} (inp : BoundaryInputs dim) :
    BoundaryState dim :=
  (List.finRange 2).foldl (phaseStep inp) (vertexLoop inp inp.numVertices)

/-- The raw pressure gradient of a phase: the sum over the face's
vertices of the shape-function gradient times that vertex's phase
pressure (the accumulated value before any buoyancy handling). -/
def rawPressureGradient {dim : ℕ} (inp : BoundaryInputs dim) (p : Fin 2) : Vec dim :=
  ∑ v ∈ Finset.range inp.numVertices, (inp.elemDat v).pressure p • inp.face.grad v

/-- The effective (porous) diffusion coefficient computed by the phase
loop from the volume variables of the designated sub-control volume. -/
def diffCoeffAtScv (pow73 : ℚ → ℚ) (vd : VolumeVariables) (p : Fin 2) : ℚ :=
  if vd.saturation p ≤ 0 then 0
  else
    vd.porosity * vd.saturation p *
      (1 / (vd.porosity * vd.porosity) * pow73 (vd.porosity * vd.saturation p)) *
      vd.diffCoeff p

section LoopLemmas

variable {dim : ℕ} (inp : BoundaryInputs dim)

lemma vertexLoop_zero : vertexLoop inp 0 = initState dim := rfl

lemma vertexLoop_succ (n : ℕ) :
    vertexLoop inp (n + 1) = vertexStep inp (vertexLoop inp n) n := by
  simp [vertexLoop, List.range_succ]

lemma vertexLoop_potentialGrad (n : ℕ) (p : Fin 2) :
    (vertexLoop inp n).potentialGrad p =
      ∑ v ∈ Finset.range n, (inp.elemDat v).pressure p • inp.face.grad v := by
  induction n with
  | zero => simp [vertexLoop_zero, initState]
  | succ m ih =>
      rw [vertexLoop_succ, Finset.sum_range_succ, ← ih]
      simp [vertexStep]

lemma vertexLoop_concentrationGrad (n : ℕ) (p : Fin 2) :
    (vertexLoop inp n).concentrationGrad p =
      ∑ v ∈ Finset.range n,
        (if p = lPhaseIdx then (inp.elemDat v).massFraction lPhaseIdx gCompIdx
         else (inp.elemDat v).massFraction gPhaseIdx lCompIdx) • inp.face.grad v := by
  induction n with
  | zero => simp [vertexLoop_zero, initState]
  | succ m ih =>
      rw [vertexLoop_succ, Finset.sum_range_succ, ← ih]
      by_cases hp : p = lPhaseIdx <;> simp [vertexStep, hp]

lemma vertexLoop_molarConcGrad (n : ℕ) (p : Fin 2) :
    (vertexLoop inp n).molarConcGrad p =
      ∑ v ∈ Finset.range n,
        (if p = lPhaseIdx then (inp.elemDat v).moleFraction lPhaseIdx gCompIdx
         else (inp.elemDat v).moleFraction gPhaseIdx lCompIdx) • inp.face.grad v := by
  induction n with
  | zero => simp [vertexLoop_zero, initState]
  | succ m ih =>
      rw [vertexLoop_succ, Finset.sum_range_succ, ← ih]
      by_cases hp : p = lPhaseIdx <;> simp [vertexStep, hp]

lemma vertexLoop_densityAtIP (n : ℕ) (p : Fin 2) :
    (vertexLoop inp n).densityAtIP p =
      ∑ v ∈ Finset.range n, (inp.elemDat v).density p * inp.face.shapeValue v := by
  induction n with
  | zero => simp [vertexLoop_zero, initState]
  | succ m ih =>
      rw [vertexLoop_succ, Finset.sum_range_succ, ← ih]
      simp [vertexStep]

lemma vertexLoop_tmp (n : ℕ) :
    (vertexLoop inp n).tmp =
      if n = 0 then 0
      else (inp.elemDat (n - 1)).moleFraction gPhaseIdx lCompIdx • inp.face.grad (n - 1) := by
  induction n with
  | zero => simp [vertexLoop_zero, initState]
  | succ m _ =>
      rw [vertexLoop_succ]
      simp [vertexStep]

end LoopLemmas

section FinalState

variable {dim : ℕ} (inp : BoundaryInputs dim)

lemma calculateBoundaryValues_eq :
    calculateBoundaryValues inp =
      phaseStep inp (phaseStep inp (vertexLoop inp inp.numVertices) lPhaseIdx)
        gPhaseIdx := by
  have h : List.finRange 2 = [lPhaseIdx, gPhaseIdx] := by decide
  rw [calculateBoundaryValues, h]
  rfl

lemma calcB_concentrationGrad :
    (calculateBoundaryValues inp).concentrationGrad =
      (vertexLoop inp inp.numVertices).concentrationGrad := by
  rw [calculateBoundaryValues_eq]; rfl

lemma calcB_molarConcGrad :
    (calculateBoundaryValues inp).molarConcGrad =
      (vertexLoop inp inp.numVertices).molarConcGrad := by
  rw [calculateBoundaryValues_eq]; rfl

lemma calcB_densityAtIP :
    (calculateBoundaryValues inp).densityAtIP =
      (vertexLoop inp inp.numVertices).densityAtIP := by
  rw [calculateBoundaryValues_eq]; rfl

lemma calcB_potentialGrad (p : Fin 2) :
    (calculateBoundaryValues inp).potentialGrad p =
      (vertexLoop inp inp.numVertices).potentialGrad p -
        (if inp.enableGravity then
          (vertexLoop inp inp.numVertices).densityAtIP p • inp.gravity
         else (vertexLoop inp inp.numVertices).tmp) := by
  rw [calculateBoundaryValues_eq]
  by_cases hg : inp.enableGravity <;>
    fin_cases p <;>
      simp [phaseStep, Function.update, lPhaseIdx, gPhaseIdx, hg]

lemma calcB_KmvpNormal (p : Fin 2) :
    (calculateBoundaryValues inp).KmvpNormal p =
      -(dot ((Ktensor dim (inp.intrinsicPermeability inp.scvIdx)).mulVec
          ((calculateBoundaryValues inp).potentialGrad p)) inp.face.normal) := by
  rw [calculateBoundaryValues_eq]
  fin_cases p <;>
    simp [phaseStep, Function.update, lPhaseIdx, gPhaseIdx]

lemma calcB_porousDiffCoeff (p : Fin 2) :
    (calculateBoundaryValues inp).porousDiffCoeff p =
      diffCoeffAtScv inp.pow73 (inp.elemDat inp.scvIdx) p := by
  rw [calculateBoundaryValues_eq]
  fin_cases p <;>
    simp [phaseStep, Function.update, diffCoeffAtScv, lPhaseIdx, gPhaseIdx]

end FinalState

/-- Geometry data of one interior sub-control-volume face
(`elemGeom.subContVolFace[scvfIdx]`): shape-function gradient per local
vertex at the integration point and the face normal. -/
structure SCVFaceGeom (dim : ℕ) where
  grad : ℕ → Vec dim
  normal : Vec dim

/-- The temperature-gradient accumulation loop of the
`TwoPTwoCNIFluxVariables` constructor: starting from
`Vector temperatureGrad(0)`, add `grad[vertIdx] * temperature()` for
every local vertex of the element. -/
def niTemperatureGradient {dim : ℕ} (geom : SCVFaceGeom dim)
    (elemDat : ℕ → VolumeVariables) (numVertices : ℕ) : Vec dim :=
  (List.range numVertices).foldl
    (fun tg vertIdx => tg + (elemDat vertIdx).temperature • geom.grad vertIdx) 0

/-- Result of the non-isothermal constructor: the base
(`TwoPTwoCFluxVariables`) sub-object, whose type stays abstract because
that class lives outside the given sources, plus the single field the
extension adds. -/
structure NIFluxVariables (Base : Type) where
  base : Base
  normalMatrixHeatFlux : ℚ

/-- The `TwoPTwoCNIFluxVariables` constructor.  The base sub-object is
built first by the `ParentType(...)` delegation (passed in here, with
its type abstract); the extension then accumulates the temperature
gradient, calls the spatial parameters' `matrixHeatFlux` law — which
reads the flux data `*this`, the element volume variables and the
temperature gradient; the element/geometry/face arguments are fixed
context — and stores the returned vector's projection onto the face
normal. -/
def mkNIFluxVariables {dim : ℕ} {Base : Type} (base : Base)
    (geom : SCVFaceGeom dim) (numVertices : ℕ)
    (elemDat : ℕ → VolumeVariables)
    (matrixHeatFlux : Base → (ℕ → VolumeVariables) → Vec dim → Vec dim) :
    NIFluxVariables Base :=
  { base := base
    normalMatrixHeatFlux :=
      dot (matrixHeatFlux base elemDat (niTemperatureGradient geom elemDat numVertices))
        geom.normal }

lemma niTemperatureGradient_eq_sum {dim : ℕ} (geom : SCVFaceGeom dim)
    (elemDat : ℕ → VolumeVariables) (n : ℕ) :
    niTemperatureGradient geom elemDat n =
      ∑ v ∈ Finset.range n, (elemDat v).temperature • geom.grad v := by
  induction n with
  | zero => simp [niTemperatureGradient]
  | succ m ih =>
      rw [Finset.sum_range_succ, ← ih]
      simp [niTemperatureGradient, List.range_succ]

lemma dot_zero_left {dim : ℕ} (v : Vec dim) : dot 0 v = 0 := by
  simp [dot]

/-- A sum of shape-function gradients weighted by a field that is
constant on the contributing vertices collapses to the constant times
the gradient sum. -/
lemma sum_const_smul_eq_zero {dim : ℕ} (n : ℕ) (g : ℕ → Vec dim) (f : ℕ → ℚ)
    (c : ℚ) (hf : ∀ v < n, f v = c)
    (hg : ∑ v ∈ Finset.range n, g v = 0) :
    ∑ v ∈ Finset.range n, f v • g v = 0 := by
  have hsum : ∑ v ∈ Finset.range n, f v • g v = c • ∑ v ∈ Finset.range n, g v := by
    rw [Finset.smul_sum]
    exact Finset.sum_congr rfl fun v hv => by
      rw [hf v (Finset.mem_range.mp hv)]
  rw [hsum, hg, smul_zero]

section KtensorLemmas

variable {dim : ℕ}

lemma Ktensor_mulVec_apply (k : ℚ) (u : Vec dim) {i0 i1 : Fin dim}
    (h0 : i0.val = 0) (h1 : i1.val = 1) (i : Fin dim) :
    (Ktensor dim k).mulVec u i =
      if i = i0 then k * u i0 else if i = i1 then k * u i1 else 0 := by
  have hne : i0 ≠ i1 := by
    intro h; rw [h] at h0; omega
  have e0 : ∀ j : Fin dim, j.val = 0 ↔ j = i0 := fun j =>
    ⟨fun h => Fin.ext (by omega), fun h => by subst h; exact h0⟩
  have e1 : ∀ j : Fin dim, j.val = 1 ↔ j = i1 := fun j =>
    ⟨fun h => Fin.ext (by omega), fun h => by subst h; exact h1⟩
  simp only [Matrix.mulVec, Matrix.dotProduct, Ktensor, Matrix.of_apply]
  simp only [e0, e1]
  by_cases hi0 : i = i0
  · subst hi0
    simp [hne]
  · by_cases hi1 : i = i1
    · subst hi1
      simp [hne, Ne.symm hne, hi0]
    · simp [hi0, hi1]

lemma dot_Ktensor_mulVec (k : ℚ) (u v : Vec dim) {i0 i1 : Fin dim}
    (h0 : i0.val = 0) (h1 : i1.val = 1) :
    dot ((Ktensor dim k).mulVec u) v = k * (u i0 * v i0 + u i1 * v i1) := by
  have hne : i0 ≠ i1 := by
    intro h; rw [h] at h0; omega
  rw [dot]
  calc ∑ i, (Ktensor dim k).mulVec u i * v i
      = ∑ i : Fin dim,
          ((if i = i0 then k * u i0 * v i else 0) +
           (if i = i1 then k * u i1 * v i else 0)) := by
        refine Finset.sum_congr rfl fun i _ => ?_
        rw [Ktensor_mulVec_apply k u h0 h1 i]
        by_cases hi0 : i = i0
        · subst hi0; simp [hne]
        · by_cases hi1 : i = i1 <;> simp [hi0, hi1, Ne.symm hne]
    _ = k * (u i0 * v i0 + u i1 * v i1) := by
        rw [Finset.sum_add_distrib]
        simp [Finset.sum_ite_eq']
        ring

end KtensorLemmas

/-- Volume variables used by the concrete C2 check: the phase is absent
(saturation zero) while porosity and the molecular diffusion
coefficient are nonzero. -/
def c2Vd : VolumeVariables :=
  { pressure := fun _ => 1
    density := fun _ => 1
    molarDensity := fun _ => 1
    saturation := fun _ => 0
    porosity := 1 / 2
    diffCoeff := fun _ => 3
    massFraction := fun _ _ => 1
    moleFraction := fun _ _ => 1
    temperature := 1 }

/-- Concrete boundary-face inputs for the C2 check. -/
def c2Input : BoundaryInputs 2 :=
  { numVertices := 1
    face := { grad := fun _ => ![1, 0], shapeValue := fun _ => 1, normal := ![1, 0] }
    elemDat := fun _ => c2Vd
    scvIdx := 0
    intrinsicPermeability := fun _ => 1
    enableGravity := false
    gravity := 0
    pow73 := fun x => x }

/-- C2: for every phase whose saturation at the designated sub-control
volume is less than or equal to zero, the effective (porous) diffusion
coefficient is exactly zero — for every porosity and molecular
diffusion coefficient — and the result is independent of the power
routine modelling `pow(·, 7/3)`, since the tortuosity expression sits
in the untaken branch of the zero-saturation guard. -/
theorem claim_C2_absent_phase_zero_diff_coeff {dim : ℕ}
    (inp : BoundaryInputs dim) (p : Fin 2)
    (hs : (inp.elemDat inp.scvIdx).saturation p ≤ 0) :
    (calculateBoundaryValues inp).porousDiffCoeff p = 0 ∧
    ∀ f : ℚ → ℚ,
      (calculateBoundaryValues { inp with pow73 := f }).porousDiffCoeff p = 0 := by
  constructor
  · rw [calcB_porousDiffCoeff, diffCoeffAtScv, if_pos hs]
  · intro f
    rw [calcB_porousDiffCoeff]
    show diffCoeffAtScv f (inp.elemDat inp.scvIdx) p = 0
    rw [diffCoeffAtScv, if_pos hs]

/-- C2 witness: the theorem applied to the concrete absent-phase input. -/
theorem claim_C2_witness :
    (c2Input.elemDat c2Input.scvIdx).saturation 0 ≤ 0 ∧
    (calculateBoundaryValues c2Input).porousDiffCoeff 0 = 0 ∧
    (calculateBoundaryValues { c2Input with pow73 := fun _ => 37 }).porousDiffCoeff 0 = 0 := by
  have hs : (c2Input.elemDat c2Input.scvIdx).saturation 0 ≤ 0 := by
    norm_num [c2Input, c2Vd]
  exact ⟨hs, (claim_C2_absent_phase_zero_diff_coeff c2Input 0 hs).1,
    (claim_C2_absent_phase_zero_diff_coeff c2Input 0 hs).2 _⟩

/-- Volume variables used by the concrete C3 check: the phase is
present with saturation 1, porosity 1 and molecular diffusion
coefficient 1. -/
def c3Vd : VolumeVariables :=
  { pressure := fun _ => 1
    density := fun _ => 1
    molarDensity := fun _ => 1
    saturation := fun _ => 1
    porosity := 1
    diffCoeff := fun _ => 1
    massFraction := fun _ _ => 1
    moleFraction := fun _ _ => 1
    temperature := 1 }

/-- Concrete boundary-face inputs for the C3 check. -/
def c3Input : BoundaryInputs 2 :=
  { numVertices := 1
    face := { grad := fun _ => ![1, 0], shapeValue := fun _ => 1, normal := ![1, 0] }
    elemDat := fun _ => c3Vd
    scvIdx := 0
    intrinsicPermeability := fun _ => 1
    enableGravity := false
    gravity := 0
    pow73 := fun x => x }

/-- C3: for every phase with strictly positive saturation `Sw` at the
designated sub-control volume and positive porosity `phi`, the
effective diffusion coefficient equals
`phi * Sw * tau * molecularDiffCoeff` with
`tau = phi^-2 * pow73(phi * Sw)`, where `pow73` models `pow(·, 7/3)`. -/
theorem claim_C3_present_phase_diff_coeff {dim : ℕ}
    (inp : BoundaryInputs dim) (p : Fin 2)
    (hphi : 0 < (inp.elemDat inp.scvIdx).porosity)
    (hs : 0 < (inp.elemDat inp.scvIdx).saturation p) :
    (calculateBoundaryValues inp).porousDiffCoeff p =
      (inp.elemDat inp.scvIdx).porosity * (inp.elemDat inp.scvIdx).saturation p *
        ((inp.elemDat inp.scvIdx).porosity ^ (-2 : ℤ) *
          inp.pow73 ((inp.elemDat inp.scvIdx).porosity *
            (inp.elemDat inp.scvIdx).saturation p)) *
        (inp.elemDat inp.scvIdx).diffCoeff p := by
  rw [calcB_porousDiffCoeff, diffCoeffAtScv, if_neg (not_le.mpr hs)]
  have h2 : (inp.elemDat inp.scvIdx).porosity ^ (-2 : ℤ) =
      1 / ((inp.elemDat inp.scvIdx).porosity * (inp.elemDat inp.scvIdx).porosity) := by
    rw [zpow_neg, one_div, show ((2 : ℤ)) = ((2 : ℕ) : ℤ) from rfl, zpow_natCast,
      pow_two]
  rw [h2]

/-- C3 witness: the theorem applied to the concrete present-phase input,
where the coefficient evaluates to `1`. -/
theorem claim_C3_witness :
    0 < (c3Input.elemDat c3Input.scvIdx).porosity ∧
    0 < (c3Input.elemDat c3Input.scvIdx).saturation 0 ∧
    (calculateBoundaryValues c3Input).porousDiffCoeff 0 = 1 := by
  have hphi : 0 < (c3Input.elemDat c3Input.scvIdx).porosity := by
    norm_num [c3Input, c3Vd]
  have hs : 0 < (c3Input.elemDat c3Input.scvIdx).saturation 0 := by
    norm_num [c3Input, c3Vd]
  refine ⟨hphi, hs, ?_⟩
  rw [claim_C3_present_phase_diff_coeff c3Input 0 hphi hs]
  norm_num [c3Input, c3Vd]

/-- C4: for every phase, the stored `KmvpNormal` equals the negated dot
product of the permeability tensor applied to the phase's potential
gradient with the face normal, and a negative K-weighted projection of
the potential gradient onto the normal yields a strictly positive flux
intensity. -/
theorem claim_C4_darcy_flux_normal {dim : ℕ} (inp : BoundaryInputs dim) (p : Fin 2) :
    (calculateBoundaryValues inp).KmvpNormal p =
      -(dot ((Ktensor dim (inp.intrinsicPermeability inp.scvIdx)).mulVec
          ((calculateBoundaryValues inp).potentialGrad p)) inp.face.normal) ∧
    (dot ((Ktensor dim (inp.intrinsicPermeability inp.scvIdx)).mulVec
          ((calculateBoundaryValues inp).potentialGrad p)) inp.face.normal < 0 →
      0 < (calculateBoundaryValues inp).KmvpNormal p) := by
  refine ⟨calcB_KmvpNormal inp p, fun h => ?_⟩
  rw [calcB_KmvpNormal inp p]
  exact neg_pos.mpr h

/-- Volume variables used by the concrete C4 check: both phase
pressures are `-1`, and the mole fraction entering the stale `tmp` is
zero so the potential gradient is the raw pressure gradient. -/
def c4Vd : VolumeVariables :=
  { pressure := fun _ => -1
    density := fun _ => 0
    molarDensity := fun _ => 0
    saturation := fun _ => 1
    porosity := 1
    diffCoeff := fun _ => 1
    massFraction := fun _ _ => 0
    moleFraction := fun _ _ => 0
    temperature := 0 }

/-- Concrete boundary-face inputs for the C4 check. -/
def c4Input : BoundaryInputs 2 :=
  { numVertices := 1
    face := { grad := fun _ => ![1, 0], shapeValue := fun _ => 1, normal := ![1, 0] }
    elemDat := fun _ => c4Vd
    scvIdx := 0
    intrinsicPermeability := fun _ => 1
    enableGravity := false
    gravity := 0
    pow73 := fun x => x }

lemma c4Input_potentialGrad :
    (calculateBoundaryValues c4Input).potentialGrad lPhaseIdx = ![-1, 0] := by
  rw [calcB_potentialGrad, vertexLoop_potentialGrad, vertexLoop_tmp]
  funext i
  fin_cases i <;>
    norm_num [c4Input, c4Vd, Finset.sum_range_one, lPhaseIdx, gPhaseIdx, lCompIdx]

/-- C4 witness: at the concrete input the K-weighted projection is `-1`
and the theorem yields a strictly positive flux intensity. -/
theorem claim_C4_witness :
    dot ((Ktensor 2 (c4Input.intrinsicPermeability c4Input.scvIdx)).mulVec
        ((calculateBoundaryValues c4Input).potentialGrad lPhaseIdx))
      c4Input.face.normal < 0 ∧
    0 < (calculateBoundaryValues c4Input).KmvpNormal lPhaseIdx := by
  have hdot : dot ((Ktensor 2 (c4Input.intrinsicPermeability c4Input.scvIdx)).mulVec
      ((calculateBoundaryValues c4Input).potentialGrad lPhaseIdx))
      c4Input.face.normal < 0 := by
    rw [c4Input_potentialGrad]
    norm_num [dot, Ktensor, Matrix.mulVec, Matrix.dotProduct, Fin.sum_univ_two,
      c4Input]
  exact ⟨hdot, (claim_C4_darcy_flux_normal c4Input lPhaseIdx).2 hdot⟩

/-- C9: the permeability lookup and the porosity/saturation/diffusion
lookups of the boundary reconstructor read only the single
constructor-supplied sub-control-volume index `scvIdx`: replacing the
volume variables at every other vertex leaves every effective diffusion
coefficient unchanged, and replacing the permeability accessor at every
other index leaves the whole result unchanged. -/
theorem claim_C9_scv_local_lookups {dim : ℕ} (inp : BoundaryInputs dim)
    (ed2 : ℕ → VolumeVariables) (perm2 : ℕ → ℚ)
    (hed : ed2 inp.scvIdx = inp.elemDat inp.scvIdx)
    (hperm : perm2 inp.scvIdx = inp.intrinsicPermeability inp.scvIdx) :
    (∀ p, (calculateBoundaryValues { inp with elemDat := ed2 }).porousDiffCoeff p =
        (calculateBoundaryValues inp).porousDiffCoeff p) ∧
    calculateBoundaryValues { inp with intrinsicPermeability := perm2 } =
      calculateBoundaryValues inp := by
  constructor
  · intro p
    rw [calcB_porousDiffCoeff, calcB_porousDiffCoeff]
    show diffCoeffAtScv inp.pow73 (ed2 inp.scvIdx) p =
      diffCoeffAtScv inp.pow73 (inp.elemDat inp.scvIdx) p
    rw [hed]
  · have hv : vertexStep { inp with intrinsicPermeability := perm2 } =
        vertexStep inp := by
      funext s idx
      simp [vertexStep]
    have hp : phaseStep { inp with intrinsicPermeability := perm2 } =
        phaseStep inp := by
      funext s q
      simp [phaseStep, hperm]
    have hloop : vertexLoop { inp with intrinsicPermeability := perm2 } =
        vertexLoop inp := by
      funext n
      rw [vertexLoop, vertexLoop, hv]
    rw [calculateBoundaryValues_eq, calculateBoundaryValues_eq, hp]
    show phaseStep inp (phaseStep inp
        (vertexLoop { inp with intrinsicPermeability := perm2 } inp.numVertices)
        lPhaseIdx) gPhaseIdx = _
    rw [hloop]

/-- Alternative volume variables for the C9 check, placed at the vertex
the designated sub-control volume does not use. -/
def c9VdOther : VolumeVariables :=
  { pressure := fun _ => 7
    density := fun _ => 7
    molarDensity := fun _ => 7
    saturation := fun _ => -1
    porosity := 9
    diffCoeff := fun _ => 9
    massFraction := fun _ _ => 0
    moleFraction := fun _ _ => 0
    temperature := 7 }

/-- Concrete boundary-face inputs for the C9 check. -/
def c9Input : BoundaryInputs 2 :=
  { numVertices := 2
    face := { grad := fun v => if v = 0 then ![1, 0] else ![-1, 0]
              shapeValue := fun _ => 1 / 2
              normal := ![1, 0] }
    elemDat := fun _ => c3Vd
    scvIdx := 0
    intrinsicPermeability := fun _ => 1
    enableGravity := false
    gravity := 0
    pow73 := fun x => x }

/-- C9 witness: changing the volume variables away from `scvIdx` keeps
the diffusion coefficients, and changing the permeability accessor away
from `scvIdx` keeps the whole result. -/
theorem claim_C9_witness :
    (∀ p, (calculateBoundaryValues { c9Input with
        elemDat := fun v => if v = 0 then c3Vd else c9VdOther }).porousDiffCoeff p =
      (calculateBoundaryValues c9Input).porousDiffCoeff p) ∧
    calculateBoundaryValues { c9Input with
        intrinsicPermeability := fun v => if v = 0 then 1 else 55 } =
      calculateBoundaryValues c9Input := by
  exact claim_C9_scv_local_lookups c9Input
    (fun v => if v = 0 then c3Vd else c9VdOther)
    (fun v => if v = 0 then 1 else 55)
    (by norm_num [c9Input]) (by norm_num [c9Input])

/-- C10: the permeability tensor carries `k` exactly at the diagonal
positions with coordinates `(0,0)` and `(1,1)` and is zero elsewhere,
so `KmvpNormal` reduces to `-k` times the planar part
`potentialGrad[0]*normal[0] + potentialGrad[1]*normal[1]`; a third
spatial component of the potential gradient or the normal contributes
nothing. -/
theorem claim_C10_planar_permeability {dim : ℕ} (inp : BoundaryInputs dim)
    (p : Fin 2) (i0 i1 : Fin dim) (h0 : i0.val = 0) (h1 : i1.val = 1) :
    (∀ i j : Fin dim,
      Ktensor dim (inp.intrinsicPermeability inp.scvIdx) i j =
        if (i = i0 ∧ j = i0) ∨ (i = i1 ∧ j = i1) then
          inp.intrinsicPermeability inp.scvIdx
        else 0) ∧
    (calculateBoundaryValues inp).KmvpNormal p =
      -(inp.intrinsicPermeability inp.scvIdx *
        ((calculateBoundaryValues inp).potentialGrad p i0 * inp.face.normal i0 +
         (calculateBoundaryValues inp).potentialGrad p i1 * inp.face.normal i1)) := by
  have e0 : ∀ j : Fin dim, j.val = 0 ↔ j = i0 := fun j =>
    ⟨fun h => Fin.ext (by omega), fun h => by subst h; exact h0⟩
  have e1 : ∀ j : Fin dim, j.val = 1 ↔ j = i1 := fun j =>
    ⟨fun h => Fin.ext (by omega), fun h => by subst h; exact h1⟩
  constructor
  · intro i j
    simp only [Ktensor, Matrix.of_apply, e0, e1]
  · rw [calcB_KmvpNormal, dot_Ktensor_mulVec _ _ _ h0 h1]

/-- Concrete three-dimensional boundary-face inputs for the C10 check,
with nonzero third components in the shape gradients and the normal. -/
def c10Input : BoundaryInputs 3 :=
  { numVertices := 1
    face := { grad := fun _ => ![1, 0, 1], shapeValue := fun _ => 1, normal := ![1, 0, 1] }
    elemDat := fun _ => c4Vd
    scvIdx := 0
    intrinsicPermeability := fun _ => 1
    enableGravity := false
    gravity := 0
    pow73 := fun x => x }

/-- C10 witness: in the concrete three-dimensional instance the flux
intensity picks up only the first two components even though the
potential gradient and the normal have nonzero third components. -/
theorem claim_C10_witness :
    (Ktensor 3 (c10Input.intrinsicPermeability c10Input.scvIdx) 2 2 = 0) ∧
    (calculateBoundaryValues c10Input).KmvpNormal lPhaseIdx =
      -(c10Input.intrinsicPermeability c10Input.scvIdx *
        ((calculateBoundaryValues c10Input).potentialGrad lPhaseIdx 0 *
            c10Input.face.normal 0 +
         (calculateBoundaryValues c10Input).potentialGrad lPhaseIdx 1 *
            c10Input.face.normal 1)) := by
  have h := claim_C10_planar_permeability c10Input lPhaseIdx 0 1 rfl rfl
  refine ⟨?_, h.2⟩
  rw [h.1 2 2]
  norm_num [show ((2 : Fin 3) ≠ 0) by decide, show ((2 : Fin 3) ≠ 1) by decide]

/-- C6: whenever every contributing vertex holds an identical value for
one of the fraction fields and the shape-function gradients at the
integration point sum to the zero vector, the reconstructed gradient of
that field is the zero vector; likewise for the temperature gradient of
the non-isothermal extension. -/
theorem claim_C6_uniform_field_zero_gradient {dim : ℕ} (inp : BoundaryInputs dim)
    (hg : ∑ v ∈ Finset.range inp.numVertices, inp.face.grad v = 0) :
    (∀ c, (∀ v < inp.numVertices,
        (inp.elemDat v).massFraction lPhaseIdx gCompIdx = c) →
      (calculateBoundaryValues inp).concentrationGrad lPhaseIdx = 0) ∧
    (∀ c, (∀ v < inp.numVertices,
        (inp.elemDat v).massFraction gPhaseIdx lCompIdx = c) →
      (calculateBoundaryValues inp).concentrationGrad gPhaseIdx = 0) ∧
    (∀ c, (∀ v < inp.numVertices,
        (inp.elemDat v).moleFraction lPhaseIdx gCompIdx = c) →
      (calculateBoundaryValues inp).molarConcGrad lPhaseIdx = 0) ∧
    (∀ c, (∀ v < inp.numVertices,
        (inp.elemDat v).moleFraction gPhaseIdx lCompIdx = c) →
      (calculateBoundaryValues inp).molarConcGrad gPhaseIdx = 0) ∧
    (∀ (geom : SCVFaceGeom dim) (ed : ℕ → VolumeVariables) (n : ℕ) (c : ℚ),
      (∑ v ∈ Finset.range n, geom.grad v = 0) →
      (∀ v < n, (ed v).temperature = c) →
      niTemperatureGradient geom ed n = 0) := by
  have hgl : gPhaseIdx ≠ lPhaseIdx := by decide
  refine ⟨fun c hc => ?_, fun c hc => ?_, fun c hc => ?_, fun c hc => ?_,
    fun geom ed n c hsum ht => ?_⟩
  · rw [calcB_concentrationGrad, vertexLoop_concentrationGrad]
    simp only [if_pos rfl]
    exact sum_const_smul_eq_zero _ _ _ c hc hg
  · rw [calcB_concentrationGrad, vertexLoop_concentrationGrad]
    simp only [if_neg hgl]
    exact sum_const_smul_eq_zero _ _ _ c hc hg
  · rw [calcB_molarConcGrad, vertexLoop_molarConcGrad]
    simp only [if_pos rfl]
    exact sum_const_smul_eq_zero _ _ _ c hc hg
  · rw [calcB_molarConcGrad, vertexLoop_molarConcGrad]
    simp only [if_neg hgl]
    exact sum_const_smul_eq_zero _ _ _ c hc hg
  · rw [niTemperatureGradient_eq_sum]
    exact sum_const_smul_eq_zero _ _ _ c ht hsum

/-- Concrete boundary-face inputs for the C6 check: two vertices with
opposite shape gradients and identical volume variables. -/
def c6Input : BoundaryInputs 2 :=
  { numVertices := 2
    face := { grad := fun v => if v = 0 then ![1, 0] else ![-1, 0]
              shapeValue := fun _ => 1 / 2
              normal := ![1, 0] }
    elemDat := fun _ => c3Vd
    scvIdx := 0
    intrinsicPermeability := fun _ => 1
    enableGravity := false
    gravity := 0
    pow73 := fun x => x }

/-- Concrete interior-face geometry whose shape gradients sum to the
zero vector, for the C6 and C7 checks. -/
def c6Geom : SCVFaceGeom 2 :=
  { grad := fun v => if v = 0 then ![1, 0] else ![-1, 0]
    normal := ![1, 0] }

lemma c6Geom_grad_sum : ∑ v ∈ Finset.range 2, c6Geom.grad v = 0 := by
  funext i
  fin_cases i <;>
    norm_num [c6Geom, Finset.sum_range_succ, Finset.sum_apply]

/-- C6 witness: the theorem applied to the concrete uniform-field
inputs. -/
theorem claim_C6_witness :
    (∑ v ∈ Finset.range c6Input.numVertices, c6Input.face.grad v = 0) ∧
    (calculateBoundaryValues c6Input).concentrationGrad lPhaseIdx = 0 ∧
    (calculateBoundaryValues c6Input).molarConcGrad gPhaseIdx = 0 ∧
    niTemperatureGradient c6Geom (fun _ => c3Vd) 2 = 0 := by
  have hg : ∑ v ∈ Finset.range c6Input.numVertices, c6Input.face.grad v = 0 := by
    show ∑ v ∈ Finset.range 2, c6Input.face.grad v = 0
    funext i
    fin_cases i <;>
      norm_num [c6Input, Finset.sum_range_succ, Finset.sum_apply]
  have h := claim_C6_uniform_field_zero_gradient c6Input hg
  refine ⟨hg, h.1 1 fun v _ => ?_, h.2.2.2.1 1 fun v _ => ?_,
    h.2.2.2.2 c6Geom (fun _ => c3Vd) 2 1 c6Geom_grad_sum fun v _ => ?_⟩ <;>
    norm_num [c6Input, c3Vd]

/-- C7: the non-isothermal extension accumulates the temperature
gradient as the shape-gradient-weighted sum of the vertex temperatures,
projects the vector returned by the spatial parameters' heat-flux law
onto the face normal, and therefore reports zero `normalMatrixHeatFlux`
for a uniform temperature field whenever the gradients sum to zero and
the law maps a zero temperature gradient to the zero vector. -/
theorem claim_C7_ni_temp_gradient_heat_flux {dim : ℕ} {Base : Type} (base : Base)
    (geom : SCVFaceGeom dim) (n : ℕ) (ed : ℕ → VolumeVariables)
    (law : Base → (ℕ → VolumeVariables) → Vec dim → Vec dim) :
    niTemperatureGradient geom ed n =
      ∑ v ∈ Finset.range n, (ed v).temperature • geom.grad v ∧
    (mkNIFluxVariables base geom n ed law).normalMatrixHeatFlux =
      dot (law base ed (niTemperatureGradient geom ed n)) geom.normal ∧
    (∀ c, (∀ v < n, (ed v).temperature = c) →
      (∑ v ∈ Finset.range n, geom.grad v = 0) →
      law base ed 0 = 0 →
      (mkNIFluxVariables base geom n ed law).normalMatrixHeatFlux = 0) := by
  refine ⟨niTemperatureGradient_eq_sum geom ed n, rfl, fun c hc hsum hlaw => ?_⟩
  have ht : niTemperatureGradient geom ed n = 0 := by
    rw [niTemperatureGradient_eq_sum]
    exact sum_const_smul_eq_zero _ _ _ c hc hsum
  show dot (law base ed (niTemperatureGradient geom ed n)) geom.normal = 0
  rw [ht, hlaw, dot_zero_left]

/-- C7 witness: uniform temperature, gradients summing to zero and the
identity law yield a zero conductive heat flux. -/
theorem claim_C7_witness :
    (mkNIFluxVariables () c6Geom 2 (fun _ => c3Vd)
      (fun _ _ tGrad => tGrad)).normalMatrixHeatFlux = 0 :=
  (claim_C7_ni_temp_gradient_heat_flux () c6Geom 2 (fun _ => c3Vd)
      (fun _ _ tGrad => tGrad)).2.2 1
    (fun v _ => by norm_num [c3Vd]) c6Geom_grad_sum rfl

/-- C8: constructing the non-isothermal flux variables leaves the base
sub-object produced by the isothermal reconstruction untouched — the
extension only adds `normalMatrixHeatFlux`.  The base type is abstract,
so the extension provably cannot recompute or alter any base field. -/
theorem claim_C8_extension_preserves_base {dim : ℕ} {Base : Type} (base : Base)
    (geom : SCVFaceGeom dim) (n : ℕ) (ed : ℕ → VolumeVariables)
    (law : Base → (ℕ → VolumeVariables) → Vec dim → Vec dim) :
    (mkNIFluxVariables base geom n ed law).base = base := rfl

/-- Volume variables used by the concrete C1 check: both phase
pressures are zero, while `moleFraction(gPhaseIdx, lCompIdx)` is one so
the stale `tmp` left by the vertex loop is nonzero. -/
def c1Vd : VolumeVariables :=
  { pressure := fun _ => 0
    density := fun _ => 0
    molarDensity := fun _ => 0
    saturation := fun _ => 1
    porosity := 1
    diffCoeff := fun _ => 1
    massFraction := fun _ _ => 1
    moleFraction := fun _ _ => 1
    temperature := 0 }

/-- Concrete boundary-face inputs for the C1 check, with gravity
disabled. -/
def c1Input : BoundaryInputs 2 :=
  { numVertices := 1
    face := { grad := fun _ => ![1, 0], shapeValue := fun _ => 1, normal := ![1, 0] }
    elemDat := fun _ => c1Vd
    scvIdx := 0
    intrinsicPermeability := fun _ => 1
    enableGravity := false
    gravity := 0
    pow73 := fun x => x }

/-- C1 fails on the code: with gravity disabled, the phase loop still
executes `potentialGrad_[phaseIdx] -= tmp` with the stale `tmp` left by
the last vertex-loop iteration (the last vertex's shape gradient times
its `moleFraction(gPhaseIdx, lCompIdx)`), so the stored potential
gradient differs from the raw pressure gradient: at the concrete input
the raw gradient is zero but the code stores `(-1, 0)`. -/
theorem claim_C1_gravity_off_stale_tmp :
    c1Input.enableGravity = false ∧
    rawPressureGradient c1Input lPhaseIdx = 0 ∧
    (calculateBoundaryValues c1Input).potentialGrad lPhaseIdx = ![-1, 0] ∧
    (calculateBoundaryValues c1Input).potentialGrad lPhaseIdx ≠
      rawPressureGradient c1Input lPhaseIdx := by
  have hraw : rawPressureGradient c1Input lPhaseIdx = 0 := by
    funext i
    norm_num [rawPressureGradient, c1Input, c1Vd, Finset.sum_range_one,
      Finset.sum_apply]
  have hpg : (calculateBoundaryValues c1Input).potentialGrad lPhaseIdx = ![-1, 0] := by
    rw [calcB_potentialGrad, vertexLoop_potentialGrad, vertexLoop_tmp]
    funext i
    fin_cases i <;>
      norm_num [c1Input, c1Vd, Finset.sum_range_one, Finset.sum_apply]
  refine ⟨rfl, hraw, hpg, ?_⟩
  rw [hpg, hraw]
  intro heq
  have h0 := congrFun heq 0
  norm_num at h0

/-- Volume variables used by the concrete C5 check: every vertex holds
the same pressure, fractions and density per phase. -/
def c5Vd : VolumeVariables :=
  { pressure := fun _ => 5
    density := fun _ => 1
    molarDensity := fun _ => 1
    saturation := fun _ => 1
    porosity := 1
    diffCoeff := fun _ => 1
    massFraction := fun _ _ => 1 / 2
    moleFraction := fun _ _ => 1 / 2
    temperature := 1 }

/-- Concrete boundary-face inputs for the C5 check: spatially uniform
vertex data, shape gradients summing to the zero vector, gravity
disabled. -/
def c5Input : BoundaryInputs 2 :=
  { numVertices := 2
    face := { grad := fun v => if v = 0 then ![1, 0] else ![-1, 0]
              shapeValue := fun _ => 1 / 2
              normal := ![1, 0] }
    elemDat := fun _ => c5Vd
    scvIdx := 0
    intrinsicPermeability := fun _ => 1
    enableGravity := false
    gravity := 0
    pow73 := fun x => x }

/-- C5 fails on the code: for a spatially uniform boundary face whose
shape gradients sum to zero (and gravity disabled), the concentration
and molar-concentration gradients are zero as claimed, but the stale
`tmp` subtraction leaves a nonzero potential gradient `(1/2, 0)` and a
nonzero `KmvpNormal = -1/2` for the wetting phase. -/
theorem claim_C5_uniform_boundary_nonzero_flux :
    c5Input.enableGravity = false ∧
    (∑ v ∈ Finset.range c5Input.numVertices, c5Input.face.grad v = 0) ∧
    (calculateBoundaryValues c5Input).concentrationGrad lPhaseIdx = 0 ∧
    (calculateBoundaryValues c5Input).concentrationGrad gPhaseIdx = 0 ∧
    (calculateBoundaryValues c5Input).molarConcGrad lPhaseIdx = 0 ∧
    (calculateBoundaryValues c5Input).molarConcGrad gPhaseIdx = 0 ∧
    (calculateBoundaryValues c5Input).potentialGrad lPhaseIdx = ![1 / 2, 0] ∧
    (calculateBoundaryValues c5Input).KmvpNormal lPhaseIdx = -(1 / 2) ∧
    (calculateBoundaryValues c5Input).KmvpNormal lPhaseIdx ≠ 0 := by
  have hg : ∑ v ∈ Finset.range c5Input.numVertices, c5Input.face.grad v = 0 := by
    show ∑ v ∈ Finset.range 2, c5Input.face.grad v = 0
    funext i
    fin_cases i <;>
      norm_num [c5Input, Finset.sum_range_succ, Finset.sum_apply]
  have hcl : (calculateBoundaryValues c5Input).concentrationGrad lPhaseIdx = 0 := by
    rw [calcB_concentrationGrad, vertexLoop_concentrationGrad]
    simp only [if_pos rfl]
    exact sum_const_smul_eq_zero _ _ _ (1 / 2) (fun v _ => rfl) hg
  have hcg : (calculateBoundaryValues c5Input).concentrationGrad gPhaseIdx = 0 := by
    rw [calcB_concentrationGrad, vertexLoop_concentrationGrad]
    simp only [if_neg (show gPhaseIdx ≠ lPhaseIdx by decide)]
    exact sum_const_smul_eq_zero _ _ _ (1 / 2) (fun v _ => rfl) hg
  have hml : (calculateBoundaryValues c5Input).molarConcGrad lPhaseIdx = 0 := by
    rw [calcB_molarConcGrad, vertexLoop_molarConcGrad]
    simp only [if_pos rfl]
    exact sum_const_smul_eq_zero _ _ _ (1 / 2) (fun v _ => rfl) hg
  have hmg : (calculateBoundaryValues c5Input).molarConcGrad gPhaseIdx = 0 := by
    rw [calcB_molarConcGrad, vertexLoop_molarConcGrad]
    simp only [if_neg (show gPhaseIdx ≠ lPhaseIdx by decide)]
    exact sum_const_smul_eq_zero _ _ _ (1 / 2) (fun v _ => rfl) hg
  have hpg : (calculateBoundaryValues c5Input).potentialGrad lPhaseIdx =
      ![1 / 2, 0] := by
    rw [calcB_potentialGrad, vertexLoop_potentialGrad, vertexLoop_tmp]
    funext i
    fin_cases i <;>
      norm_num [c5Input, c5Vd, Finset.sum_range_succ, Finset.sum_apply]
  have hk : (calculateBoundaryValues c5Input).KmvpNormal lPhaseIdx = -(1 / 2) := by
    rw [calcB_KmvpNormal, hpg]
    norm_num [dot, Ktensor, Matrix.mulVec, Matrix.dotProduct, Fin.sum_univ_two,
      c5Input]
  refine ⟨rfl, hg, hcl, hcg, hml, hmg, hpg, hk, ?_⟩
  rw [hk]
  norm_num

end TwoPTwoC
